import Mathlib

/-!
Verification of the chat client in `EmpatheticChatbot` (main chat controller) and the
`chat-with-ai` edge function, as a shallow embedding in Lean 4.

The embedding translates the relevant TypeScript into pure Lean functions:
React state becomes an explicit `ChatState` record, event handlers and effects become
state-transition functions, and network outcomes are injected as `Except` parameters.
-/

namespace Chatai

/-- Message role, the TS union `'user' | 'assistant'`. -/
inductive Role where
  | user
  | assistant
deriving DecidableEq, Repr

/-- The client-side `Message` interface of the chat controller. -/
structure Message where
  id : String
  role : Role
  content : String
  image_url : Option String
  created_at : String
deriving DecidableEq, Repr

/-- Connection status union `'connected' | 'disconnected' | 'reconnecting'`. -/
inductive ConnStatus where
  | connected
  | disconnected
  | reconnecting
deriving DecidableEq, Repr

/-- Subscription status union `'active' | 'inactive' | 'error'`. -/
inductive SubStatus where
  | active
  | inactive
  | error
deriving DecidableEq, Repr

/-- A browser `File`; only its name is ever consulted by the code (for the extension). -/
structure MFile where
  name : String
deriving DecidableEq, Repr

/-- The `pendingMessage` slot: `{message: string, imageFile?: File}`. -/
structure Pending where
  message : String
  imageFile : Option MFile
deriving DecidableEq, Repr

/-- The React state of the chat controller component that the claims are about. -/
structure ChatState where
  currentConversationId : Option String
  messages : List Message
  connectionStatus : ConnStatus
  pendingMessage : Option Pending
  subscriptionStatus : SubStatus
  retryCount : Nat
deriving DecidableEq, Repr

/-- `MAX_RETRIES` constant of the controller. -/
def MAX_RETRIES : Nat := 3

/-! ## Realtime INSERT / UPDATE handlers (setupRealtimeSubscription) -/

/-- The INSERT-event update of the message list:
`if (prev.some(msg => msg.id === newMessage.id)) return prev; return [...prev, newMessage]`. -/
def applyInsert (prev : List Message) (newMessage : Message) : List Message :=
  if prev.any (fun msg => msg.id = newMessage.id) then prev
  else prev ++ [newMessage]

/-- The UPDATE-event update of the message list:
`prev.map(msg => msg.id === updatedMessage.id ? updatedMessage : msg)`. -/
def applyUpdate (prev : List Message) (updatedMessage : Message) : List Message :=
  prev.map (fun msg => if msg.id = updatedMessage.id then updatedMessage else msg)

/-- A realtime change event for the displayed conversation. -/
inductive RtEvent where
  | insert (m : Message)
  | update (m : Message)
deriving DecidableEq, Repr

/-- Apply one realtime event to the message list. -/
def applyRtEvent (ms : List Message) : RtEvent → List Message
  | RtEvent.insert m => applyInsert ms m
  | RtEvent.update m => applyUpdate ms m

/-- Apply a sequence of realtime events to the message list, oldest first. -/
def applyRtEvents (ms : List Message) (es : List RtEvent) : List Message :=
  es.foldl applyRtEvent ms

/-- The INSERT handler also resets the retry counter
(`retryCountRef.current = 0`) besides updating the message list. -/
def onInsertEvent (s : ChatState) (newMessage : Message) : ChatState :=
  { s with messages := applyInsert s.messages newMessage, retryCount := 0 }

/-- The UPDATE handler only rewrites the matching entry of the message list. -/
def onUpdateEvent (s : ChatState) (updatedMessage : Message) : ChatState :=
  { s with messages := applyUpdate s.messages updatedMessage }

/-! ### Lemmas about the two handlers -/

theorem applyUpdate_map_id (ms : List Message) (m : Message) :
    (applyUpdate ms m).map Message.id = ms.map Message.id := by
  induction ms with
  | nil => rfl
  | cons x xs ih =>
    simp only [applyUpdate, List.map_cons] at ih ⊢
    by_cases h : x.id = m.id
    · simp [h, ih]
    · simp [h, ih]

theorem applyInsert_of_present (ms : List Message) (m : Message)
    (h : ms.any (fun msg => msg.id = m.id) = true) : applyInsert ms m = ms := by
  simp [applyInsert, h]

theorem applyInsert_of_absent (ms : List Message) (m : Message)
    (h : ms.any (fun msg => msg.id = m.id) = false) : applyInsert ms m = ms ++ [m] := by
  simp only [applyInsert]
  rw [h]
  simp

theorem applyUpdate_of_absent (ms : List Message) (m : Message)
    (h : ms.any (fun msg => msg.id = m.id) = false) : applyUpdate ms m = ms := by
  induction ms with
  | nil => rfl
  | cons x xs ih =>
    simp only [List.any_cons, Bool.or_eq_false_iff, decide_eq_false_iff_not] at h
    simp only [applyUpdate, List.map_cons] at ih ⊢
    rw [if_neg h.1]
    have := ih h.2
    simp only [applyUpdate] at this
    rw [this]

theorem nodup_applyInsert (ms : List Message) (m : Message)
    (h : (ms.map Message.id).Nodup) : ((applyInsert ms m).map Message.id).Nodup := by
  by_cases hp : ms.any (fun msg => msg.id = m.id) = true
  · rw [applyInsert_of_present ms m hp]; exact h
  · rw [applyInsert_of_absent ms m (Bool.eq_false_iff.mpr hp)]
    simp only [List.map_append, List.map_cons, List.map_nil]
    rw [List.nodup_append]
    refine ⟨h, List.nodup_singleton _, ?_⟩
    intro a ha hb
    simp only [List.mem_singleton] at hb
    subst hb
    simp only [List.mem_map] at ha
    obtain ⟨msg, hmem, hid⟩ := ha
    apply hp
    rw [List.any_eq_true]
    exact ⟨msg, hmem, by simp [hid]⟩

theorem nodup_applyUpdate (ms : List Message) (m : Message)
    (h : (ms.map Message.id).Nodup) : ((applyUpdate ms m).map Message.id).Nodup := by
  rw [applyUpdate_map_id]; exact h

theorem nodup_applyRtEvents (es : List RtEvent) (ms : List Message)
    (h : (ms.map Message.id).Nodup) : ((applyRtEvents ms es).map Message.id).Nodup := by
  induction es generalizing ms with
  | nil => exact h
  | cons e es ih =>
    cases e with
    | insert m => exact ih (applyInsert ms m) (nodup_applyInsert ms m h)
    | update m => exact ih (applyUpdate ms m) (nodup_applyUpdate ms m h)

/-- Claim C2: for every sequence of realtime INSERT and UPDATE events applied to the
Message Store of the displayed conversation, the store never contains two entries with the
same server-assigned message id: an INSERT appends the message iff its id is not already
present (otherwise it is ignored), and an UPDATE replaces the entry whose id matches and
leaves the store unchanged when no entry matches. -/
theorem C2_message_store_nodup (ms : List Message) (es : List RtEvent)
    (h : (ms.map Message.id).Nodup) :
    ((applyRtEvents ms es).map Message.id).Nodup
    ∧ (∀ m, ms.any (fun msg => msg.id = m.id) = true → applyInsert ms m = ms)
    ∧ (∀ m, ms.any (fun msg => msg.id = m.id) = false → applyInsert ms m = ms ++ [m])
    ∧ (∀ m, ms.any (fun msg => msg.id = m.id) = false → applyUpdate ms m = ms)
    ∧ (∀ m, (applyUpdate ms m).map Message.id = ms.map Message.id) := by
  exact ⟨nodup_applyRtEvents es ms h,
    fun m => applyInsert_of_present ms m,
    fun m => applyInsert_of_absent ms m,
    fun m => applyUpdate_of_absent ms m,
    fun m => applyUpdate_map_id ms m⟩

/-! ## Realtime Link reconnection state machine (setupRealtimeSubscription) -/

/-- `setupRealtimeSubscription`: removes any existing channel and sets the subscription
status to inactive before the new subscribe call is issued. -/
def setupRealtimeSubscription (s : ChatState) : ChatState :=
  { s with subscriptionStatus := SubStatus.inactive }

/-- The `SUBSCRIBED` branch of the subscribe status callback. It sets the subscription
active and the connection connected; it does not touch `retryCountRef`. -/
def onSubscribed (s : ChatState) : ChatState :=
  { s with subscriptionStatus := SubStatus.active, connectionStatus := ConnStatus.connected }

/-- The `CHANNEL_ERROR` branch of the subscribe status callback. Returns the new state and
the delay in milliseconds of the scheduled reconnect attempt, when one is scheduled:
a retry is scheduled only while `retryCountRef.current < MAX_RETRIES`, with delay
`Math.pow(2, retryCountRef.current) * 1000`. -/
def onChannelError (s : ChatState) : ChatState × Option Nat :=
  let s1 := { s with subscriptionStatus := SubStatus.error }
  if s1.retryCount < MAX_RETRIES then
    (s1, some (2 ^ s1.retryCount * 1000))
  else
    (s1, none)

/-- The body of the scheduled reconnect timer: increments `retryCountRef`, sets the
connection status to reconnecting and re-runs `setupRealtimeSubscription`. -/
def onRetryTimerFire (s : ChatState) : ChatState :=
  setupRealtimeSubscription
    { s with retryCount := s.retryCount + 1, connectionStatus := ConnStatus.reconnecting }

/-- One round of a failing handshake: the `CHANNEL_ERROR` callback runs, and when it
scheduled a retry, that timer then fires (leading to the next subscribe attempt).
The second component is the delay of the scheduled retry, when one was scheduled. -/
def failureRound (s : ChatState) : ChatState × Option Nat :=
  match onChannelError s with
  | (s1, some delay) => (onRetryTimerFire s1, some delay)
  | (s1, none) => (s1, none)

/-- A run of up to `n` consecutive handshake failures. Each failure round that schedules
a retry leads to the next subscribe attempt, which fails again; once a round schedules no
retry, no further automatic subscribe attempt exists and the run stops. Returns the final
state and the list of delays of all automatically scheduled reconnect attempts. -/
def runFailures : Nat → ChatState → ChatState × List Nat
  | 0, s => (s, [])
  | n + 1, s =>
    match failureRound s with
    | (s1, some delay) =>
      let r := runFailures n s1
      (r.1, delay :: r.2)
    | (s1, none) => (s1, [])

/-- The `useEffect` on `currentConversationId` (conversation switch): resets
`retryCountRef.current = 0` and re-runs `setupRealtimeSubscription` for the new id. -/
def onConversationChangeEffect (s : ChatState) (cid : String) : ChatState :=
  setupRealtimeSubscription
    { s with retryCount := 0, currentConversationId := some cid }

/-- `handleForceReconnect`: the explicit user-triggered reconnect action. Sets the
connection status to reconnecting and, when a conversation is selected, re-runs
`setupRealtimeSubscription`. -/
def handleForceReconnect (s : ChatState) : ChatState :=
  let s1 := { s with connectionStatus := ConnStatus.reconnecting }
  match s1.currentConversationId with
  | some _ => setupRealtimeSubscription s1
  | none => s1

/-! ### Lemmas about failure runs -/

theorem runFailures_spec (n : Nat) : ∀ (k : Nat) (s : ChatState), s.retryCount = k →
    (runFailures n s).2
        = (List.range' k (min n (MAX_RETRIES - k))).map (fun j => 2 ^ j * 1000)
    ∧ (runFailures n s).1.retryCount = k + min n (MAX_RETRIES - k)
    ∧ (runFailures n s).1.currentConversationId = s.currentConversationId
    ∧ (runFailures n s).1.subscriptionStatus
        = (if n = 0 then s.subscriptionStatus
           else if min n (MAX_RETRIES - k) = n then SubStatus.inactive
           else SubStatus.error) := by
  induction n with
  | zero =>
    intro k s hk
    simp [runFailures, hk]
  | succ n ih =>
    intro k s hk
    by_cases hlt : k < MAX_RETRIES
    · have hround : failureRound s
          = (onRetryTimerFire { s with subscriptionStatus := SubStatus.error },
             some (2 ^ k * 1000)) := by
        simp [failureRound, onChannelError, hk, hlt]
      have hnext : (onRetryTimerFire { s with subscriptionStatus := SubStatus.error }).retryCount
          = k + 1 := by
        simp [onRetryTimerFire, setupRealtimeSubscription, hk]
      obtain ⟨ih1, ih2, ih3, ih4⟩ :=
        ih (k + 1) (onRetryTimerFire { s with subscriptionStatus := SubStatus.error }) hnext
      have hunfold : runFailures (n + 1) s
          = ((runFailures n (onRetryTimerFire { s with subscriptionStatus := SubStatus.error })).1,
             2 ^ k * 1000 ::
               (runFailures n
                 (onRetryTimerFire { s with subscriptionStatus := SubStatus.error })).2) := by
        simp [runFailures, hround]
      have hmin : min (n + 1) (MAX_RETRIES - k) = min n (MAX_RETRIES - (k + 1)) + 1 := by
        simp only [MAX_RETRIES] at hlt ⊢
        omega
      rw [hunfold]
      refine ⟨?_, ?_, ?_, ?_⟩
      · rw [ih1, hmin]
        rw [show List.range' k (min n (MAX_RETRIES - (k + 1)) + 1)
              = k :: List.range' (k + 1) (min n (MAX_RETRIES - (k + 1))) from rfl]
        rw [List.map_cons]
      · rw [ih2]
        simp only [MAX_RETRIES] at hlt ⊢
        omega
      · rw [ih3]
        simp [onRetryTimerFire, setupRealtimeSubscription]
      · rw [ih4]
        have hs1sub : (onRetryTimerFire
            { s with subscriptionStatus := SubStatus.error }).subscriptionStatus
            = SubStatus.inactive := by
          simp [onRetryTimerFire, setupRealtimeSubscription]
        by_cases hn : n = 0
        · subst hn
          have h1 : min 1 (MAX_RETRIES - k) = 1 := by
            simp only [MAX_RETRIES] at hlt ⊢
            omega
          simp [hs1sub, h1]
        · rw [if_neg hn, if_neg (Nat.succ_ne_zero n)]
          by_cases hm : min n (MAX_RETRIES - (k + 1)) = n
          · rw [if_pos hm, if_pos (by simp only [MAX_RETRIES] at hlt hm ⊢; omega)]
          · rw [if_neg hm, if_neg (by simp only [MAX_RETRIES] at hlt hm ⊢; omega)]
    · have hround : failureRound s = ({ s with subscriptionStatus := SubStatus.error }, none) := by
        simp [failureRound, onChannelError, hk, hlt]
      have hmin : min (n + 1) (MAX_RETRIES - k) = 0 := by omega
      refine ⟨?_, ?_, ?_, ?_⟩
      · simp [runFailures, hround, hmin]
      · simp [runFailures, hround, hmin, hk]
      · simp [runFailures, hround]
      · simp [runFailures, hround, hmin]

/-- Example message used in concrete witnesses. -/
def msgA : Message :=
  { id := "m1", role := Role.user, content := "hi", image_url := none, created_at := "t0" }

/-- Example message used in concrete witnesses. -/
def msgB : Message :=
  { id := "m2", role := Role.assistant, content := "hello", image_url := none,
    created_at := "t1" }

/-- An example chat state used for concrete witnesses. -/
def exSt : ChatState :=
  { currentConversationId := none, messages := [], connectionStatus := ConnStatus.connected,
    pendingMessage := none, subscriptionStatus := SubStatus.inactive, retryCount := 0 }

/-- Claim C1: for the realtime subscription of a fixed conversation (established by the
conversation-change effect, which zeroes the attempt counter), each handshake error
schedules an automatic reconnection attempt after `2 ^ attempt` seconds (attempt starting
at 0), at most `MAX_RETRIES = 3` automatic attempts are ever scheduled in a run of
consecutive failures, and once the budget is exhausted the subscription status is `error`
and stays `error` under further failure rounds, while the explicit user-triggered
`handleForceReconnect` action leaves the `error` state. -/
theorem C1_reconnect_backoff (s : ChatState) (cid : String) (n : Nat) :
    (runFailures n (onConversationChangeEffect s cid)).2
        = (List.range (min n MAX_RETRIES)).map (fun k => 2 ^ k * 1000)
    ∧ (runFailures n (onConversationChangeEffect s cid)).2.length ≤ MAX_RETRIES
    ∧ (MAX_RETRIES < n →
        (runFailures n (onConversationChangeEffect s cid)).1.subscriptionStatus
            = SubStatus.error
        ∧ (∀ m, (runFailures m (runFailures n (onConversationChangeEffect s cid)).1).2 = [])
        ∧ (∀ m, 0 < m →
            (runFailures m
                (runFailures n (onConversationChangeEffect s cid)).1).1.subscriptionStatus
              = SubStatus.error)
        ∧ (handleForceReconnect
              (runFailures n (onConversationChangeEffect s cid)).1).subscriptionStatus
            = SubStatus.inactive) := by
  have h0 : (onConversationChangeEffect s cid).retryCount = 0 := by
    simp [onConversationChangeEffect, setupRealtimeSubscription]
  obtain ⟨h1, h2, h3, h4⟩ := runFailures_spec n 0 (onConversationChangeEffect s cid) h0
  have hcid : (runFailures n (onConversationChangeEffect s cid)).1.currentConversationId
      = some cid := by
    rw [h3]
    simp [onConversationChangeEffect, setupRealtimeSubscription]
  refine ⟨?_, ?_, ?_⟩
  · rw [h1, Nat.sub_zero, List.range_eq_range']
  · rw [h1]
    simp only [List.length_map, List.length_range', Nat.sub_zero]
    omega
  · intro hn
    have hrc : (runFailures n (onConversationChangeEffect s cid)).1.retryCount
        = MAX_RETRIES := by
      rw [h2, Nat.sub_zero]
      simp only [MAX_RETRIES] at hn ⊢
      omega
    obtain ⟨g1, g2, g3, g4⟩ :=
      runFailures_spec 0 MAX_RETRIES (runFailures n (onConversationChangeEffect s cid)).1 hrc
    have hstatus : (runFailures n (onConversationChangeEffect s cid)).1.subscriptionStatus
        = SubStatus.error := by
      rw [h4, Nat.sub_zero]
      rw [if_neg (by omega), if_neg (by simp only [MAX_RETRIES] at hn ⊢; omega)]
    refine ⟨hstatus, ?_, ?_, ?_⟩
    · intro m
      obtain ⟨f1, _, _, _⟩ :=
        runFailures_spec m MAX_RETRIES (runFailures n (onConversationChangeEffect s cid)).1 hrc
      rw [f1]
      simp
    · intro m hm
      obtain ⟨_, _, _, f4⟩ :=
        runFailures_spec m MAX_RETRIES (runFailures n (onConversationChangeEffect s cid)).1 hrc
      rw [f4, if_neg (by omega), if_neg (by omega)]
    · simp [handleForceReconnect, hcid, setupRealtimeSubscription]

/-- Witness for C1 at five consecutive handshake failures from a fresh subscription. -/
theorem C1_reconnect_backoff_witness :
    (runFailures 5 (onConversationChangeEffect exSt "c1")).2 = [1000, 2000, 4000]
    ∧ (runFailures 5 (onConversationChangeEffect exSt "c1")).1.subscriptionStatus
        = SubStatus.error
    ∧ (runFailures 1
          (runFailures 5 (onConversationChangeEffect exSt "c1")).1).1.subscriptionStatus
        = SubStatus.error := by
  refine ⟨?_, ?_, ?_⟩
  · rw [(C1_reconnect_backoff exSt "c1" 5).1]
    decide
  · exact ((C1_reconnect_backoff exSt "c1" 5).2.2 (by decide)).1
  · exact ((C1_reconnect_backoff exSt "c1" 5).2.2 (by decide)).2.2.1 1 (by decide)

/-- Counterexample to claim C4 as stated: a successful `SUBSCRIBED` transition into the
`active` state does not reset the automatic-reconnect attempt counter. At the concrete
state with counter 2, the counter after the transition is still 2, not 0. -/
theorem C4_subscribed_keeps_counter_counterexample :
    (onSubscribed { exSt with retryCount := 2 }).subscriptionStatus = SubStatus.active
    ∧ (onSubscribed { exSt with retryCount := 2 }).retryCount = 2
    ∧ (onSubscribed { exSt with retryCount := 2 }).retryCount ≠ 0 := by
  refine ⟨rfl, rfl, by decide⟩

/-- Claim C4 (amended): a successful transition of the realtime subscription into the
`active` state leaves the attempt counter unchanged (so a later failure resumes with the
previous count rather than a fresh budget); the counter is instead reset to 0 when a
realtime INSERT message is delivered and when the active conversation changes. -/
theorem C4_retry_counter_reset_sites (s : ChatState) (m : Message) (cid : String) :
    (onSubscribed s).subscriptionStatus = SubStatus.active
    ∧ (onSubscribed s).connectionStatus = ConnStatus.connected
    ∧ (onSubscribed s).retryCount = s.retryCount
    ∧ (onInsertEvent s m).retryCount = 0
    ∧ (onConversationChangeEffect s cid).retryCount = 0 := by
  refine ⟨rfl, rfl, rfl, rfl, rfl⟩

/-! ## Send Pipeline (sendMessageMutation, handleSendMessage, online/offline handlers) -/

/-- Typed failure of a send attempt. -/
inductive SendError where
  | uploadFailed
  | invokeFailed
deriving DecidableEq, Repr

/-- The successful payload returned by the `chat-with-ai` invocation. -/
structure InvokeOk where
  response : String
  conversationId : Option String
deriving DecidableEq, Repr

/-- Result of one run of `sendMessageMutation.mutationFn`: the state after the run, the
outcome, and whether the 500 ms removal timer for the optimistic placeholders was
scheduled (which happens only on the success path). -/
structure SendResult where
  state : ChatState
  result : Except SendError InvokeOk
  removalScheduled : Bool
deriving Repr

/-- The optimistic user message inserted by `mutationFn`
(`id: optimistic-user-Date.now()`). -/
def optimisticUserMsg (now : Nat) (message : String) (imageUrl : Option String) : Message :=
  { id := "optimistic-user-" ++ toString now, role := Role.user, content := message,
    image_url := imageUrl, created_at := toString now }

/-- The temporary empty assistant placeholder inserted by `mutationFn`
(`id: temp-Date.now()`). -/
def tempMessage (now : Nat) : Message :=
  { id := "temp-" ++ toString now, role := Role.assistant, content := "",
    image_url := none, created_at := toString now }

/-- The part of `mutationFn` after the optional image upload: insert the optimistic user
message and the temporary assistant placeholder, then invoke `chat-with-ai`. On invoke
failure the catch block only raises a toast and rethrows (placeholders stay, pending
message stays); on success the pending message is cleared and the 500 ms placeholder
removal timer is scheduled. -/
def mutationFnAfterUpload (s : ChatState) (p : Pending) (now : Nat)
    (imageUrl : Option String) (invokeResult : Except Unit InvokeOk) : SendResult :=
  let s1 := { s with messages := s.messages ++ [optimisticUserMsg now p.message imageUrl] }
  let s2 := { s1 with messages := s1.messages ++ [tempMessage now] }
  match invokeResult with
  | Except.error _ =>
    { state := s2, result := Except.error SendError.invokeFailed, removalScheduled := false }
  | Except.ok d =>
    { state := { s2 with pendingMessage := none }, result := Except.ok d,
      removalScheduled := true }

/-- `sendMessageMutation.mutationFn`: records the composition as the pending message
first (before any network call), then uploads the image when one is attached (an upload
error aborts with `uploadFailed`), then runs the rest of the pipeline. `uploadResult` and
`invokeResult` inject the outcomes of the two network calls. -/
def mutationFn (s : ChatState) (p : Pending) (now : Nat)
    (uploadResult : Except Unit String) (invokeResult : Except Unit InvokeOk) : SendResult :=
  let s0 := { s with pendingMessage := some p }
  match p.imageFile with
  | some _ =>
    match uploadResult with
    | Except.error _ =>
      { state := s0, result := Except.error SendError.uploadFailed, removalScheduled := false }
    | Except.ok publicUrl => mutationFnAfterUpload s0 p now (some publicUrl) invokeResult
  | none => mutationFnAfterUpload s0 p now none invokeResult

/-- Claim C5: for every send attempt with payload `(text, optional file)`, the pending
message after the run equals the original payload exactly when the attempt failed (it was
recorded before any network call, so even an upload failure — the earliest possible
network failure — leaves it populated), and it is `none` exactly when the attempt
succeeded: it is cleared only on confirmed success. -/
theorem C5_pending_send_preserved (s : ChatState) (p : Pending) (now : Nat)
    (uploadResult : Except Unit String) (invokeResult : Except Unit InvokeOk) :
    (mutationFn s p now uploadResult invokeResult).state.pendingMessage
      = match (mutationFn s p now uploadResult invokeResult).result with
        | Except.error _ => some p
        | Except.ok _ => none := by
  cases hf : p.imageFile with
  | none =>
    cases invokeResult with
    | error e => simp [mutationFn, mutationFnAfterUpload, hf]
    | ok d => simp [mutationFn, mutationFnAfterUpload, hf]
  | some f =>
    cases uploadResult with
    | error e => simp [mutationFn, hf]
    | ok u =>
      cases invokeResult with
      | error e => simp [mutationFn, mutationFnAfterUpload, hf]
      | ok d => simp [mutationFn, mutationFnAfterUpload, hf]

/-- Claim C10: when the responder invocation fails after the optimistic user message and
the empty assistant placeholder were inserted, the error path does not remove them: both
placeholders are still in the Message Store after the failure, in fact the store is the
previous store plus exactly those two rows, and no removal timer was scheduled — the
timed removal is scheduled only on the success path. -/
theorem C10_failure_keeps_placeholders (s : ChatState) (p : Pending) (now : Nat)
    (imageUrl : Option String) (d : InvokeOk) :
    optimisticUserMsg now p.message imageUrl
        ∈ (mutationFnAfterUpload s p now imageUrl (Except.error ())).state.messages
    ∧ tempMessage now
        ∈ (mutationFnAfterUpload s p now imageUrl (Except.error ())).state.messages
    ∧ (mutationFnAfterUpload s p now imageUrl (Except.error ())).state.messages
        = s.messages ++ [optimisticUserMsg now p.message imageUrl, tempMessage now]
    ∧ (mutationFnAfterUpload s p now imageUrl (Except.error ())).removalScheduled = false
    ∧ (mutationFnAfterUpload s p now imageUrl (Except.ok d)).removalScheduled = true := by
  refine ⟨?_, ?_, ?_, rfl, rfl⟩
  · simp [mutationFnAfterUpload]
  · simp [mutationFnAfterUpload]
  · simp [mutationFnAfterUpload]

/-! ## Browser online/offline handling (handleSendMessage, handleOnlineStatus) -/

/-- `handleSendMessage`: when the browser is offline, only the pending message is
recorded (and a toast raised) — no mutation is issued; when online, the mutation is
issued with the given payload. The second component lists the mutation payloads issued by
this call. -/
def handleSendMessage (s : ChatState) (online : Bool) (message : String)
    (imageFile : Option MFile) : ChatState × List Pending :=
  if online then
    (s, [{ message := message, imageFile := imageFile }])
  else
    ({ s with pendingMessage := some { message := message, imageFile := imageFile } }, [])

/-- The browser `offline` event handler: forces the displayed status to disconnected. -/
def handleOfflineStatus (s : ChatState) : ChatState :=
  { s with connectionStatus := ConnStatus.disconnected }

/-- The browser `online` event handler: sets the status to connected; when a pending
message exists, replays it through `handleSendMessage` (the browser is online now) and
clears the pending slot; then, when the subscription was in `error` and a conversation is
selected, re-runs `setupRealtimeSubscription`. The second component lists the mutation
payloads issued. -/
def handleOnlineStatus (s : ChatState) : ChatState × List Pending :=
  let s1 := { s with connectionStatus := ConnStatus.connected }
  let step2 : ChatState × List Pending :=
    match s1.pendingMessage with
    | some p =>
      let r := handleSendMessage s1 true p.message p.imageFile
      ({ r.1 with pendingMessage := none }, r.2)
    | none => (s1, [])
  if step2.1.subscriptionStatus = SubStatus.error ∧ step2.1.currentConversationId.isSome then
    (setupRealtimeSubscription step2.1, step2.2)
  else
    step2

/-- The state after the offline event and the offline send of "Hello" in the C6 scenario. -/
def c6AfterOfflineSend : ChatState × List Pending :=
  handleSendMessage
    (handleOfflineStatus
      { exSt with currentConversationId := some "c1", subscriptionStatus := SubStatus.active })
    false "Hello" none

/-- Claim C6: sending "Hello" with no image while the browser is offline records
`{text: "Hello", file: undefined}` as the pending send, issues no network call, and
leaves the displayed status disconnected; when the `online` event subsequently fires,
exactly one send attempt is issued with that exact preserved payload and the pending
slot is cleared. -/
theorem C6_offline_send_scenario :
    c6AfterOfflineSend.1.pendingMessage = some { message := "Hello", imageFile := none }
    ∧ c6AfterOfflineSend.2 = []
    ∧ c6AfterOfflineSend.1.connectionStatus = ConnStatus.disconnected
    ∧ (handleOnlineStatus c6AfterOfflineSend.1).2
        = [{ message := "Hello", imageFile := none }]
    ∧ (handleOnlineStatus c6AfterOfflineSend.1).1.pendingMessage = none
    ∧ (handleOnlineStatus c6AfterOfflineSend.1).1.connectionStatus = ConnStatus.connected := by
  refine ⟨rfl, rfl, rfl, ?_, ?_, ?_⟩ <;>
    simp [c6AfterOfflineSend, handleOnlineStatus, handleSendMessage, handleOfflineStatus,
      setupRealtimeSubscription, exSt]

/-! ## Missing-response recovery check (useEffect on messagesData and messages) -/

/-- A `chat-with-ai` invocation issued by the recovery check
(`{message, conversationId, imageUrl, isRetry: true}`). -/
structure RecoveryCall where
  message : String
  conversationId : Option String
  imageUrl : Option String
  isRetry : Bool
deriving DecidableEq, Repr

/-- The guard of the recovery effect body, transcribed from
`if (messagesData?.messages && !messagesLoading && messages.length > 0)` followed by
`if (msgs.length > 0 && msgs[msgs.length - 1].role === 'user')`. -/
def recoveryGuard (fetched : Option (List Message)) (messagesLoading : Bool)
    (messages : List Message) : Bool :=
  fetched.isSome && !messagesLoading && decide (0 < messages.length) &&
    (match messages.getLast? with
     | some lastMsg => lastMsg.role = Role.user
     | none => false)

/-- The recovery effect body: when the guard holds, a fire-and-forget `chat-with-ai`
invocation is issued with the last user message content, its image reference, and the
replay flag. -/
def recoveryEffect (fetched : Option (List Message)) (messagesLoading : Bool)
    (messages : List Message) (cid : Option String) : Option RecoveryCall :=
  if recoveryGuard fetched messagesLoading messages then
    match messages.getLast? with
    | some lastMsg =>
      some { message := lastMsg.content, conversationId := cid,
             imageUrl := lastMsg.image_url, isRetry := true }
    | none => none
  else
    none

/-- The effect has `messages` in its dependency array, so it re-runs after every render
in which the Message Store changed. Given the (unchanged) fetched data and loading flag,
this collects the recovery invocations issued over a trace of Message Store values. -/
def recoveryInvocations (fetched : Option (List Message)) (messagesLoading : Bool)
    (trace : List (List Message)) (cid : Option String) : List RecoveryCall :=
  trace.filterMap (fun ms => recoveryEffect fetched messagesLoading ms cid)

/-- The user message of the C3 failing input: a loaded conversation whose only message
has role `user`. -/
def c3UserMsg : Message :=
  { id := "m1", role := Role.user, content := "are you there", image_url := none,
    created_at := "t0" }

/-- The same stored row after an UPDATE realtime event rewrote it. -/
def c3UserMsgUpdated : Message :=
  { c3UserMsg with content := "are you there (edited)" }

/-- Claim C3 is contradicted by the code: the recovery effect lists `messages` among its
dependencies, so it re-runs on every Message Store mutation, not once per conversation
load. At the failing input — a conversation loaded with a single user message, followed
by one UPDATE realtime event to that message — the recovery responder is invoked twice
for one load, both times with the replay flag; a conversation whose last message is an
assistant reply triggers zero invocations. -/
theorem C3_recovery_refires_on_mutation :
    recoveryInvocations (some [c3UserMsg]) false
        [[c3UserMsg], applyUpdate [c3UserMsg] c3UserMsgUpdated] (some "c1")
      = [{ message := "are you there", conversationId := some "c1", imageUrl := none,
           isRetry := true },
         { message := "are you there (edited)", conversationId := some "c1",
           imageUrl := none, isRetry := true }]
    ∧ (recoveryInvocations (some [c3UserMsg]) false
        [[c3UserMsg], applyUpdate [c3UserMsg] c3UserMsgUpdated] (some "c1")).length = 2
    ∧ recoveryEffect (some [c3UserMsg, msgB]) false [c3UserMsg, msgB] (some "c1") = none := by
  refine ⟨by decide, by decide, by decide⟩

/-! ## chat-with-ai handler: context window and request composition -/

/-- A row of the `messages` table as selected by the history query of `chat-with-ai`
(`select role, content, image_url`, ordered by `created_at`). -/
structure DbMessage where
  role : Role
  content : String
  image_url : Option String
  created_at : Nat
deriving DecidableEq, Repr

/-- The history query of `chat-with-ai`
(`order by created_at ascending, limit 20`): given the conversation's rows in
`created_at`-ascending order, the database returns the first 20 of them. -/
def historyRows (rowsAsc : List DbMessage) : List DbMessage :=
  rowsAsc.take 20

/-- The window described by the spec sentence: the most recent 20 prior messages, i.e.
the last 20 entries of the `created_at`-ascending list. Named after the spec wording for
comparison with `historyRows`. -/
def specRecentWindow (rowsAsc : List DbMessage) : List DbMessage :=
  rowsAsc.drop (rowsAsc.length - 20)

/-- A message in the request sent to the language model. -/
structure AIMessage where
  role : String
  text : String
  image_url : Option String
deriving DecidableEq, Repr

def roleString : Role → String
  | Role.user => "user"
  | Role.assistant => "assistant"

/-- The fixed system directive of `chat-with-ai`. -/
def systemPromptContent : String :=
  "You are an intelligent AI assistant with the ability to see and understand images. Your core traits:\n\n1. IMAGE UNDERSTANDING: When provided with images, analyze them thoroughly - describe what you see, identify objects, understand context, and respond appropriately.\n\n2. NATURAL CONVERSATION: Maintain a warm, conversational tone. Ask follow-up questions, show genuine interest, and remember context from the conversation.\n\n3. HELPFUL ASSISTANCE: Provide practical help. Offer solutions, suggestions, and information.\n\nAlways respond with intelligence, making the user feel heard and understood."

/-- The fixed system message prepended to every model request. -/
def systemPrompt : AIMessage :=
  { role := "system", text := systemPromptContent, image_url := none }

/-- `openAIMessages = [systemPrompt, ...messages, currentMessage]`. -/
def buildOpenAIMessages (history : List DbMessage) (message : String)
    (imageUrl : Option String) : List AIMessage :=
  systemPrompt ::
    (history.map (fun r =>
      { role := roleString r.role, text := r.content, image_url := r.image_url }))
    ++ [{ role := "user", text := message, image_url := imageUrl }]

/-- A conversation with 21 prior messages, `created_at` 0 through 20 ascending: the
failing input of claim C7. -/
def c7Rows : List DbMessage :=
  (List.range 21).map (fun i =>
    { role := Role.user, content := "", image_url := none, created_at := i })

/-- The most recent prior message of that conversation. -/
def c7Newest : DbMessage :=
  { role := Role.user, content := "", image_url := none, created_at := 20 }

/-- Claim C7 is contradicted by the code: the history query orders by `created_at`
ascending and then applies `limit 20`, which selects the oldest 20 prior messages, not
the most recent 20 as the claim (and the code comment `Limit context to last 20
messages`) says. At a conversation with 21 prior messages, the window the code builds
omits the most recent prior message, while the window the spec describes contains it;
the model request is the fixed system directive, then the window, then the current
message. -/
theorem C7_context_window_oldest_not_recent :
    historyRows c7Rows ≠ specRecentWindow c7Rows
    ∧ (historyRows c7Rows).length = 20
    ∧ c7Newest ∉ historyRows c7Rows
    ∧ c7Newest ∈ specRecentWindow c7Rows
    ∧ buildOpenAIMessages (historyRows c7Rows) "hi" none
        = systemPrompt ::
            ((historyRows c7Rows).map (fun r =>
              { role := roleString r.role, text := r.content, image_url := r.image_url }))
            ++ [{ role := "user", text := "hi", image_url := none }] := by
  refine ⟨by decide, by decide, by decide, by decide, rfl⟩

/-! ## Conversation deletion (deleteConversationMutation) -/

/-- The externally visible side effects of one run of the delete mutation. -/
structure DeleteEffects where
  conversationsInvalidated : Bool
  errorReported : Bool
  successReported : Bool
deriving DecidableEq, Repr

/-- One run of `deleteConversationMutation` with the injected outcome of the persistence
delete call. The mutation function performs no local-state change itself; `onSuccess`
clears the current conversation id and the messages and invalidates the conversations
query; `onError` only reports the failure. When no conversation is selected the mutation
function returns early without calling the persistence service, and `onSuccess` runs. -/
def deleteConversationRun (s : ChatState) (deleteResult : Except String Unit) :
    ChatState × DeleteEffects :=
  match s.currentConversationId with
  | none =>
    ({ s with currentConversationId := none, messages := [] },
     { conversationsInvalidated := true, errorReported := false, successReported := true })
  | some _ =>
    match deleteResult with
    | Except.ok _ =>
      ({ s with currentConversationId := none, messages := [] },
       { conversationsInvalidated := true, errorReported := false, successReported := true })
    | Except.error _ =>
      (s, { conversationsInvalidated := false, errorReported := true,
            successReported := false })

/-- Claim C8: deleting the active conversation is atomic with respect to local state: on
success the active conversation id becomes none, the Message Store is cleared and the
conversation list cache is invalidated; on a persistence error the failure is reported
and the local state (active id, Message Store) is left exactly unchanged and the list
cache is not invalidated — no optimistic delete occurs. -/
theorem C8_delete_conversation_atomic (s : ChatState) (deleteResult : Except String Unit) :
    match s.currentConversationId, deleteResult with
    | some _, Except.ok _ =>
      (deleteConversationRun s deleteResult).1.currentConversationId = none
      ∧ (deleteConversationRun s deleteResult).1.messages = []
      ∧ (deleteConversationRun s deleteResult).2.conversationsInvalidated = true
      ∧ (deleteConversationRun s deleteResult).2.successReported = true
    | some _, Except.error _ =>
      (deleteConversationRun s deleteResult).1 = s
      ∧ (deleteConversationRun s deleteResult).2.conversationsInvalidated = false
      ∧ (deleteConversationRun s deleteResult).2.errorReported = true
    | none, _ => True := by
  cases hc : s.currentConversationId with
  | none => simp
  | some cid =>
    cases deleteResult with
    | ok u => exact ⟨by simp [deleteConversationRun, hc], by simp [deleteConversationRun, hc],
        by simp [deleteConversationRun, hc], by simp [deleteConversationRun, hc]⟩
    | error e => exact ⟨by simp [deleteConversationRun, hc], by simp [deleteConversationRun, hc],
        by simp [deleteConversationRun, hc]⟩

/-! ## Chat input (ChatInput.handleSend) -/

/-- The JavaScript `String.prototype.trim`: removes leading and trailing whitespace. -/
def jsTrim (s : String) : String :=
  String.mk
    (((s.data.dropWhile Char.isWhitespace).reverse.dropWhile Char.isWhitespace).reverse)

/-- `ChatInput.handleSend`: returns the `(message, imageFile)` pair passed to
`onSendMessage`, or `none` when the send is suppressed. Transcribed from
`if (!message.trim() && !selectedImage) return;` and
`onSendMessage(message.trim() || m_analyze, selectedImage || undefined)`, where the empty
trimmed string is falsy. -/
def chatInputHandleSend (message : String) (selectedImage : Option MFile) :
    Option (String × Option MFile) :=
  if jsTrim message = "" ∧ selectedImage = none then
    none
  else
    some (if jsTrim message = "" then "Please analyze this image" else jsTrim message,
          selectedImage)

/-- Claim C9: at the chat-input interface, if the composed text is empty or
whitespace-only but an image file is attached, the issued send carries the literal text
"Please analyze this image" in place of the empty text; and if the text is
empty/whitespace and no file is attached, no send is issued at all. -/
theorem C9_empty_text_image_substitution (message : String) (h : jsTrim message = "") :
    chatInputHandleSend message none = none
    ∧ ∀ f : MFile, chatInputHandleSend message (some f)
        = some ("Please analyze this image", some f) := by
  constructor
  · simp [chatInputHandleSend, h]
  · intro f
    simp [chatInputHandleSend, h]

/-- Witness for C9 at the whitespace-only composition with an attached image. -/
theorem C9_empty_text_image_substitution_witness :
    chatInputHandleSend "   " none = none
    ∧ chatInputHandleSend "   " (some { name := "cat.png" })
        = some ("Please analyze this image", some { name := "cat.png" }) := by
  have h := C9_empty_text_image_substitution "   " (by decide)
  exact ⟨h.1, h.2 { name := "cat.png" }⟩

/-- Witness for C2 at a concrete event sequence containing a duplicate insert. -/
theorem C2_message_store_nodup_witness :
    ((applyRtEvents [msgA]
        [RtEvent.insert msgB, RtEvent.insert msgB, RtEvent.update msgA]).map
      Message.id).Nodup :=
  (C2_message_store_nodup [msgA]
    [RtEvent.insert msgB, RtEvent.insert msgB, RtEvent.update msgA] (by decide)).1

end Chatai
